import Mathlib

/-!
Verification development for the hermes CFD daemon.

The definitions below are shallow embeddings of the Rust source:
bitcoin transactions are modelled as lists of outputs, prices and
txids as natural numbers, timestamps as integers or seconds-since-epoch
naturals, database tables as association lists, and fallible code as
`Except String`.
-/

namespace Hermes

/-- Role of this daemon instance (model::Role). -/
inductive Role where
  | maker
  | taker
deriving DecidableEq, Repr

/-- Position held (model::Position). -/
inductive Position where
  | long
  | short
deriving DecidableEq, Repr

/-- A bitcoin transaction, modelled as its txid together with its list of
outputs; each output is a pair of script pubkey and value in satoshi.
Transactions are consumed as opaque values by the daemon; the only
operations used are `txid`, output lookup by script and output lookup by
index, which this model supports. -/
structure Transaction where
  txid : Nat
  outputs : List (Nat × Nat)
deriving DecidableEq, Repr

/-- maia::TransactionExt::outpoint - find the outpoint (txid, vout) of the
output paying to the given script pubkey, if any. -/
def Transaction.outpoint (tx : Transaction) (script : Nat) : Option (Nat × Nat) :=
  (tx.outputs.findIdx? (fun o => o.1 == script)).map (fun vout => (tx.txid, vout))

/-- The fields of a DLC that the process manager and the
closed-CFD aggregation in db.rs read: the lock transaction and its
output descriptor script, the commit transaction and its script,
the settlement event (id and timestamp) and the per-role payout script.
-/
structure Dlc where
  lockTx : Transaction
  lockScript : Nat
  commitTx : Transaction
  commitScript : Nat
  settlementEventId : Nat
  settlementEventTimestamp : Int
  scriptPubkeyMaker : Nat
  scriptPubkeyTaker : Nat
deriving DecidableEq, Repr

/-- Dlc::script_pubkey_for - payout script pubkey of the given role. -/
def Dlc.scriptPubkeyFor (dlc : Dlc) (role : Role) : Nat :=
  match role with
  | Role.maker => dlc.scriptPubkeyMaker
  | Role.taker => dlc.scriptPubkeyTaker

/-! ### Aggregate loading through the cache (daemon/src/db.rs)

`Connection::load_open_cfd` either starts from a cached aggregate or from a
fresh aggregate built from the CFD row (whose version is 0), then applies
the events returned by `load_cfd_events` for the aggregate version. -/

namespace Db

/-- load_cfd_events - select the events of a contract, skipping the first
`fromVersion` of them (the SQL is `limit $2,-1`, an OFFSET). -/
def loadCfdEvents {E : Type} (events : List E) (fromVersion : Nat) : List E :=
  events.drop fromVersion

/-- Connection::load_open_cfd - start from the cache entry if present,
otherwise from the fresh aggregate built from the CFD row, then fold the
events whose sequence exceeds the version of the starting aggregate. -/
def loadOpenCfd {α E : Type} (apply : α → E → α) (version : α → Nat)
    (fresh : α) (cache : Option α) (events : List E) : α :=
  let cfd := match cache with
    | none => fresh
    | some c => c
  (loadCfdEvents events (version cfd)).foldl apply cfd

end Db

/-! ### Closed-contract archival (daemon/src/db.rs)

`move_to_closed_cfds` selects the contracts with a terminal on-chain event
and moves each of them, inside one database transaction per contract, into
`closed_cfds` and its satellite tables. Tables are association lists keyed
by the contract id (uuid). -/

namespace Db

/-- One row of the cfds table: the immutable contract parameters that the
closed-CFD aggregation reads. -/
structure CfdRow where
  position : Position
  role : Role
  initialPrice : Nat
  takerLeverage : Nat
  quantityUsd : Nat
  counterpartyNetworkIdentity : Nat
  openingFee : Int
deriving DecidableEq, Repr

/-- model::EventKind as consumed by the closed-CFD aggregation of db.rs,
with exactly the payloads it reads. -/
inductive EventKind where
  | contractSetupStarted
  | contractSetupCompleted (dlc : Dlc)
  | contractSetupFailed
  | offerRejected
  | rolloverStarted
  | rolloverAccepted
  | rolloverRejected
  | rolloverCompleted (dlc : Dlc) (fundingFee : Int)
  | rolloverFailed
  | collaborativeSettlementStarted
  | collaborativeSettlementProposalAccepted
  | collaborativeSettlementCompleted (spendTx : Transaction) (script : Nat)
      (price : Nat)
  | collaborativeSettlementRejected
  | collaborativeSettlementFailed
  | lockConfirmed
  | lockConfirmedAfterFinality
  | commitConfirmed
  | cetConfirmed
  | refundConfirmed
  | revokeConfirmed
  | collaborativeSettlementConfirmed
  | cetTimelockExpiredPriorOracleAttestation
  | cetTimelockExpiredPostOracleAttestation (cet : Transaction)
  | refundTimelockExpired (refundTx : Transaction)
  | oracleAttestedPriorCetTimelock (timelockedCet : Transaction)
      (commitTx : Option Transaction) (price : Nat)
  | oracleAttestedPostCetTimelock (cet : Transaction) (price : Nat)
  | manualCommit (tx : Transaction)
deriving DecidableEq, Repr

/-- A stored event: its creation timestamp and kind. -/
structure CfdEvent where
  timestamp : Int
  kind : EventKind
deriving DecidableEq, Repr

/-- EventKind::to_string - the name under which an event kind is stored in
the events table and the event_log table. -/
def kindName : EventKind → String
  | EventKind.contractSetupStarted => "ContractSetupStarted"
  | EventKind.contractSetupCompleted _ => "ContractSetupCompleted"
  | EventKind.contractSetupFailed => "ContractSetupFailed"
  | EventKind.offerRejected => "OfferRejected"
  | EventKind.rolloverStarted => "RolloverStarted"
  | EventKind.rolloverAccepted => "RolloverAccepted"
  | EventKind.rolloverRejected => "RolloverRejected"
  | EventKind.rolloverCompleted _ _ => "RolloverCompleted"
  | EventKind.rolloverFailed => "RolloverFailed"
  | EventKind.collaborativeSettlementStarted => "CollaborativeSettlementStarted"
  | EventKind.collaborativeSettlementProposalAccepted =>
      "CollaborativeSettlementProposalAccepted"
  | EventKind.collaborativeSettlementCompleted _ _ _ =>
      "CollaborativeSettlementCompleted"
  | EventKind.collaborativeSettlementRejected => "CollaborativeSettlementRejected"
  | EventKind.collaborativeSettlementFailed => "CollaborativeSettlementFailed"
  | EventKind.lockConfirmed => "LockConfirmed"
  | EventKind.lockConfirmedAfterFinality => "LockConfirmedAfterFinality"
  | EventKind.commitConfirmed => "CommitConfirmed"
  | EventKind.cetConfirmed => "CetConfirmed"
  | EventKind.refundConfirmed => "RefundConfirmed"
  | EventKind.revokeConfirmed => "RevokeConfirmed"
  | EventKind.collaborativeSettlementConfirmed =>
      "CollaborativeSettlementConfirmed"
  | EventKind.cetTimelockExpiredPriorOracleAttestation =>
      "CetTimelockExpiredPriorOracleAttestation"
  | EventKind.cetTimelockExpiredPostOracleAttestation _ =>
      "CetTimelockExpiredPostOracleAttestation"
  | EventKind.refundTimelockExpired _ => "RefundTimelockExpired"
  | EventKind.oracleAttestedPriorCetTimelock _ _ _ =>
      "OracleAttestedPriorCetTimelock"
  | EventKind.oracleAttestedPostCetTimelock _ _ =>
      "OracleAttestedPostCetTimelock"
  | EventKind.manualCommit _ => "ManualCommit"

/-- The three terminal on-chain event names of
closed_cfd_ids_according_to_the_blockchain. -/
def isTerminalName (n : String) : Bool :=
  n == "CollaborativeSettlementConfirmed" || n == "CetConfirmed" ||
    n == "RefundConfirmed"

/-- Data about the lock transaction stored with a closed CFD. -/
structure LockInput where
  txid : Nat
  dlcVout : Nat
  timestamp : Int
deriving DecidableEq, Repr

/-- A collaborative settlement transaction row. -/
structure CollaborativeSettlement where
  txid : Nat
  vout : Nat
  payout : Nat
  price : Nat
  timestamp : Int
deriving DecidableEq, Repr

/-- A commit transaction row. -/
structure Commit where
  txid : Nat
  timestamp : Int
deriving DecidableEq, Repr

/-- A CET row. -/
structure Cet where
  txid : Nat
  vout : Nat
  payout : Nat
  price : Nat
  timestamp : Int
deriving DecidableEq, Repr

/-- A refund transaction row. -/
structure Refund where
  txid : Nat
  vout : Nat
  payout : Nat
  timestamp : Int
deriving DecidableEq, Repr

/-- All the data related to a closed CFD that is stored in the database. -/
structure ClosedCfdInput where
  id : Nat
  position : Position
  initialPrice : Nat
  takerLeverage : Nat
  nContracts : Nat
  counterpartyNetworkIdentity : Nat
  role : Role
  fees : Int
  expiryTimestamp : Int
  lock : LockInput
  collaborativeSettlement : Option CollaborativeSettlement
  commit : Option Commit
  nonCollaborativeSettlement : Option Cet
  refund : Option Refund
deriving DecidableEq, Repr

/-- Auxiliary type combining a CfdRow with its events; the fee account is
modelled as a plain integer balance starting from the opening fee (the
FeeAccount sign conventions live in the model crate and are bookkeeping
only). -/
structure ClosedCfdInputAggregate where
  id : Nat
  position : Position
  initialPrice : Nat
  takerLeverage : Nat
  nContracts : Nat
  counterpartyNetworkIdentity : Nat
  role : Role
  feeAccount : Int
  ownScriptPubkey : Option Nat
  expiryTimestamp : Option Int
  lock : Option LockInput
  commit : Option Commit
  collaborativeSettlement : Option CollaborativeSettlement
  cet : Option Cet
  refund : Option Refund
  latestDlc : Option Dlc
deriving DecidableEq, Repr

/-- ClosedCfdInputAggregate::new. -/
def ClosedCfdInputAggregate.new (id : Nat) (cfd : CfdRow) :
    ClosedCfdInputAggregate :=
  { id := id,
    position := cfd.position,
    initialPrice := cfd.initialPrice,
    takerLeverage := cfd.takerLeverage,
    nContracts := cfd.quantityUsd,
    counterpartyNetworkIdentity := cfd.counterpartyNetworkIdentity,
    role := cfd.role,
    feeAccount := cfd.openingFee,
    ownScriptPubkey := none,
    expiryTimestamp := none,
    lock := none,
    commit := none,
    collaborativeSettlement := none,
    cet := none,
    refund := none,
    latestDlc := none }

/-- The value of the output of a transaction at the given index. -/
def outputValue (tx : Transaction) (vout : Nat) : Option Nat :=
  (tx.outputs.get? vout).map (fun o => o.2)

/-- ClosedCfdInputAggregate::apply - fold one event into the aggregate;
missing outpoints or missing prerequisite state are errors, exactly where
the source uses `.context(..)?` or `bail!`. -/
def ClosedCfdInputAggregate.apply (self : ClosedCfdInputAggregate)
    (ev : CfdEvent) : Except String ClosedCfdInputAggregate :=
  match ev.kind with
  | EventKind.contractSetupStarted => Except.ok self
  | EventKind.contractSetupCompleted dlc =>
      match dlc.lockTx.outpoint dlc.lockScript with
      | none => Except.error "Missing DLC in lock TX"
      | some (txid, vout) =>
          Except.ok { self with
            lock := some { txid := txid, dlcVout := vout,
                           timestamp := ev.timestamp },
            ownScriptPubkey := some (dlc.scriptPubkeyFor self.role),
            expiryTimestamp := some dlc.settlementEventTimestamp,
            latestDlc := some dlc }
  | EventKind.contractSetupFailed => Except.ok self
  | EventKind.offerRejected => Except.ok self
  | EventKind.rolloverStarted => Except.ok self
  | EventKind.rolloverAccepted => Except.ok self
  | EventKind.rolloverRejected => Except.ok self
  | EventKind.rolloverCompleted dlc fundingFee =>
      Except.ok { self with
        ownScriptPubkey := some (dlc.scriptPubkeyFor self.role),
        feeAccount := self.feeAccount + fundingFee,
        expiryTimestamp := some dlc.settlementEventTimestamp,
        latestDlc := some dlc }
  | EventKind.rolloverFailed => Except.ok self
  | EventKind.collaborativeSettlementStarted => Except.ok self
  | EventKind.collaborativeSettlementProposalAccepted => Except.ok self
  | EventKind.collaborativeSettlementCompleted spendTx script price =>
      match spendTx.outpoint script with
      | none => Except.error "Missing spend script in collaborative settlement TX"
      | some (txid, vout) =>
          match outputValue spendTx vout with
          | none => Except.error "No output at vout"
          | some payout =>
              Except.ok { self with
                collaborativeSettlement := some
                  { txid := txid, vout := vout, payout := payout,
                    price := price, timestamp := ev.timestamp } }
  | EventKind.collaborativeSettlementRejected => Except.ok self
  | EventKind.collaborativeSettlementFailed => Except.ok self
  | EventKind.lockConfirmed => Except.ok self
  | EventKind.lockConfirmedAfterFinality => Except.ok self
  | EventKind.commitConfirmed =>
      match self.latestDlc with
      | none => Except.error "No DLC after commit confirmed"
      | some dlc =>
          match dlc.commitTx.outpoint dlc.commitScript with
          | none => Except.error "Missing DLC in commit TX"
          | some (txid, _) =>
              Except.ok { self with
                commit := some { txid := txid, timestamp := ev.timestamp } }
  | EventKind.cetConfirmed => Except.ok self
  | EventKind.refundConfirmed => Except.ok self
  | EventKind.revokeConfirmed => Except.ok self
  | EventKind.collaborativeSettlementConfirmed => Except.ok self
  | EventKind.cetTimelockExpiredPriorOracleAttestation => Except.ok self
  | EventKind.cetTimelockExpiredPostOracleAttestation _ => Except.ok self
  | EventKind.refundTimelockExpired refundTx =>
      match self.ownScriptPubkey with
      | none => Except.error "Missing DLC after refund timelock has expired"
      | some own =>
          match refundTx.outpoint own with
          | none => Except.error "Missing spend script in refund TX"
          | some (txid, vout) =>
              match outputValue refundTx vout with
              | none => Except.error "No output at vout"
              | some payout =>
                  Except.ok { self with
                    refund := some { txid := txid, vout := vout,
                                     payout := payout,
                                     timestamp := ev.timestamp } }
  | EventKind.oracleAttestedPriorCetTimelock timelockedCet commitTx price =>
      let self1 :=
        if self.commit = none then
          { self with commit := commitTx.map (fun tx =>
              { txid := tx.txid, timestamp := ev.timestamp }) }
        else self
      match self1.ownScriptPubkey with
      | none => Except.error "Missing DLC after CET was chosen"
      | some own =>
          match timelockedCet.outpoint own with
          | none => Except.error "Missing spend script in CET"
          | some (txid, vout) =>
              match outputValue timelockedCet vout with
              | none => Except.error "No output at vout"
              | some payout =>
                  Except.ok { self1 with
                    cet := some { txid := txid, vout := vout, payout := payout,
                                  price := price, timestamp := ev.timestamp } }
  | EventKind.oracleAttestedPostCetTimelock cet price =>
      match self.ownScriptPubkey with
      | none => Except.error "Missing DLC after CET was chosen"
      | some own =>
          match cet.outpoint own with
          | none => Except.error "Missing spend script in CET"
          | some (txid, vout) =>
              match outputValue cet vout with
              | none => Except.error "No output at vout"
              | some payout =>
                  Except.ok { self with
                    cet := some { txid := txid, vout := vout, payout := payout,
                                  price := price, timestamp := ev.timestamp } }
  | EventKind.manualCommit tx =>
      Except.ok { self with
        commit := some { txid := tx.txid, timestamp := ev.timestamp } }

/-- ClosedCfdInputAggregate::build - requires the lock and the expiry
timestamp to be known. -/
def ClosedCfdInputAggregate.build (self : ClosedCfdInputAggregate) :
    Except String ClosedCfdInput :=
  match self.expiryTimestamp, self.lock with
  | some expiry, some lock =>
      Except.ok
        { id := self.id,
          position := self.position,
          initialPrice := self.initialPrice,
          takerLeverage := self.takerLeverage,
          nContracts := self.nContracts,
          counterpartyNetworkIdentity := self.counterpartyNetworkIdentity,
          role := self.role,
          fees := self.feeAccount,
          expiryTimestamp := expiry,
          lock := lock,
          collaborativeSettlement := self.collaborativeSettlement,
          commit := self.commit,
          nonCollaborativeSettlement := self.cet,
          refund := self.refund }
  | none, _ => Except.error "missing expiry timestamp"
  | _, none => Except.error "missing lock"

/-- The live and closed tables of the database. -/
structure DbState where
  cfds : List (Nat × CfdRow)
  events : List (Nat × CfdEvent)
  closedCfds : List ClosedCfdInput
  collaborativeSettlementTxs : List (Nat × CollaborativeSettlement)
  commitTxs : List (Nat × Commit)
  cets : List (Nat × Cet)
  refundTxs : List (Nat × Refund)
  eventLog : List (Nat × String × Int)
deriving DecidableEq, Repr

/-- closed_cfd_ids_according_to_the_blockchain - the contracts of the
cfds table for which some event with one of the three terminal on-chain
names exists. -/
def closedCfdIdsAccordingToTheBlockchain (s : DbState) : List Nat :=
  (s.cfds.filter (fun c =>
      s.events.any (fun e => e.1 == c.1 && isTerminalName (kindName e.2.kind)))).map
    (fun c => c.1)

/-- load_cfd_row - the row of the contract, or OpenCfdNotFound. -/
def loadCfdRow (s : DbState) (id : Nat) : Except String CfdRow :=
  match s.cfds.find? (fun c => c.1 == id) with
  | some c => Except.ok c.2
  | none => Except.error "OpenCfdNotFound"

/-- The match over the recorded settlement transactions in
move_to_closed_cfds: only collaborative-settlement-only, commit plus CET,
and commit plus refund are sane; anything else aborts the transaction. -/
def satelliteInserts (s : DbState) (id : Nat) (closed : ClosedCfdInput) :
    Except String DbState :=
  match closed.collaborativeSettlement, closed.commit,
      closed.nonCollaborativeSettlement, closed.refund with
  | some cs, none, none, none =>
      Except.ok { s with collaborativeSettlementTxs :=
        s.collaborativeSettlementTxs ++ [(id, cs)] }
  | none, some cm, some ct, none =>
      Except.ok { s with
        commitTxs := s.commitTxs ++ [(id, cm)]
        cets := s.cets ++ [(id, ct)] }
  | none, some cm, none, some r =>
      Except.ok { s with
        commitTxs := s.commitTxs ++ [(id, cm)]
        refundTxs := s.refundTxs ++ [(id, r)] }
  | _, _, _, _ =>
      Except.error "CFD to be closed has insane combination of transactions"

/-- The body of the per-contract database transaction of
move_to_closed_cfds: load row and events, aggregate, build, insert the
closed row, the event-log copy and the satellite rows, then delete the
contract from the events and cfds tables. Any error aborts the whole
transaction. -/
def moveOne (s : DbState) (id : Nat) : Except String DbState :=
  match loadCfdRow s id with
  | Except.error e => Except.error e
  | Except.ok cfd =>
    let evs := (s.events.filter (fun e => e.1 == id)).map (fun e => e.2)
    match evs.foldlM ClosedCfdInputAggregate.apply
        (ClosedCfdInputAggregate.new id cfd) with
    | Except.error e => Except.error e
    | Except.ok agg =>
      match agg.build with
      | Except.error e => Except.error e
      | Except.ok closed =>
        let s1 : DbState := { s with
          closedCfds := s.closedCfds ++ [closed]
          eventLog := s.eventLog ++
            evs.map (fun e => (id, kindName e.kind, e.timestamp)) }
        match satelliteInserts s1 id closed with
        | Except.error e => Except.error e
        | Except.ok s2 =>
          if (s2.events.filter (fun e => e.1 == id)).length < 1 then
            Except.error "failed to delete from events"
          else if (s2.cfds.filter (fun c => c.1 == id)).length ≠ 1 then
            Except.error "failed to delete from cfds"
          else
            Except.ok { s2 with
              events := s2.events.filter (fun e => e.1 != id)
              cfds := s2.cfds.filter (fun c => c.1 != id) }

/-- One iteration of the loop of move_to_closed_cfds: a failed move is
logged and leaves the database unchanged (the transaction was not
committed). -/
def moveStep (s : DbState) (id : Nat) : DbState :=
  match moveOne s id with
  | Except.ok s2 => s2
  | Except.error _ => s

/-- Connection::move_to_closed_cfds - move every contract selected by
closed_cfd_ids_according_to_the_blockchain, one transaction each. -/
def moveToClosedCfds (s : DbState) : DbState :=
  (closedCfdIdsAccordingToTheBlockchain s).foldl moveStep s

/-- The satellite rows demanded by a closed row are present. -/
def satellitesPresent (s : DbState) (id : Nat) (c : ClosedCfdInput) : Prop :=
  (∀ cs, c.collaborativeSettlement = some cs →
    (id, cs) ∈ s.collaborativeSettlementTxs) ∧
  (∀ cm, c.commit = some cm → (id, cm) ∈ s.commitTxs) ∧
  (∀ ct, c.nonCollaborativeSettlement = some ct → (id, ct) ∈ s.cets) ∧
  (∀ r, c.refund = some r → (id, r) ∈ s.refundTxs)

/-- The contract was fully moved: no live rows remain, a closed row with
its satellite rows exists and the event log copy (computed from the
events the contract had in the initial state) was inserted. -/
def movedOut (s0 s : DbState) (id : Nat) : Prop :=
  s.cfds.filter (fun c => c.1 == id) = [] ∧
  s.events.filter (fun e => e.1 == id) = [] ∧
  ∃ c ∈ s.closedCfds, c.id = id ∧ satellitesPresent s id c ∧
    List.IsSuffix
      ((s0.events.filter (fun e => e.1 == id)).map
        (fun e => (id, kindName e.2.kind, e.2.timestamp)))
      (s.eventLog.filter (fun l => l.1 == id))

/-- The live rows of the contract are exactly as in the initial state. -/
def liveUnchanged (s0 s : DbState) (id : Nat) : Prop :=
  s.cfds.filter (fun c => c.1 == id) = s0.cfds.filter (fun c => c.1 == id) ∧
  s.events.filter (fun e => e.1 == id) = s0.events.filter (fun e => e.1 == id)

/-- An example contract row. -/
def exampleRow : CfdRow :=
  { position := Position.long
    role := Role.maker
    initialPrice := 50000
    takerLeverage := 2
    quantityUsd := 100
    counterpartyNetworkIdentity := 77
    openingFee := 2000 }

/-- An example DLC. -/
def exampleDlc : Dlc :=
  { lockTx := { txid := 100, outputs := [(7, 500)] }
    lockScript := 7
    commitTx := { txid := 101, outputs := [(8, 450)] }
    commitScript := 8
    settlementEventId := 55
    settlementEventTimestamp := 1000
    scriptPubkeyMaker := 30
    scriptPubkeyTaker := 31 }

/-- An example database: one contract (id 1) that was set up, settled
collaboratively and whose settlement transaction was confirmed on chain. -/
def exampleDb : DbState :=
  { cfds := [(1, exampleRow)]
    events :=
      [(1, { timestamp := 10,
             kind := EventKind.contractSetupCompleted exampleDlc }),
       (1, { timestamp := 20,
             kind := EventKind.collaborativeSettlementCompleted
               { txid := 200, outputs := [(9, 400)] } 9 45000 }),
       (1, { timestamp := 30,
             kind := EventKind.collaborativeSettlementConfirmed })]
    closedCfds := []
    collaborativeSettlementTxs := []
    commitTxs := []
    cets := []
    refundTxs := []
    eventLog := [] }

end Db

/-! ### Oracle announcement ids (daemon/src/oracle.rs)

`next_announcement_after` adds one hour and truncates minutes and seconds
to zero. Timestamps are seconds since the unix epoch. -/

namespace Oracle

/-- ceil_to_next_hour - add one hour, then replace the time of day by the
full hour (minutes, seconds zeroed). In seconds since the epoch this is
truncation of t + 3600 to a multiple of 3600. -/
def ceilToNextHour (t : Nat) : Nat :=
  ((t + 3600) / 3600) * 3600

/-- Modelled from the spec: `BitMexPriceEventId::with_20_digits` lives in
the model crate, which is not under src/. An event id is a timestamp (in
seconds since the epoch, always a full hour) together with the number of
price digits (20). -/
structure BitMexPriceEventId where
  timestamp : Nat
  digits : Nat
deriving DecidableEq, Repr

/-- next_announcement_after - the event id of the next full hour strictly
after the given timestamp, with 20 price digits. -/
def nextAnnouncementAfter (t : Nat) : BitMexPriceEventId :=
  { timestamp := ceilToNextHour t, digits := 20 }

/-- Civil date from days since the unix epoch (proleptic Gregorian
calendar), returning (year, month, day). -/
def civilFromDays (days : Nat) : Nat × Nat × Nat :=
  let z := days + 719468
  let era := z / 146097
  let doe := z % 146097
  let yoe := (doe - doe / 1460 + doe / 36524 - doe / 146097) / 365
  let doy := doe - (365 * yoe + yoe / 4 - yoe / 100)
  let mp := (5 * doy + 2) / 153
  let d := doy - (153 * mp + 2) / 5 + 1
  let m := if mp < 10 then mp + 3 else mp - 9
  let y := era * 400 + yoe + (if m ≤ 2 then 1 else 0)
  (y, m, d)

/-- Render a natural number with at least two digits. -/
def pad2 (n : Nat) : String :=
  if n < 10 then "0" ++ Nat.repr n else Nat.repr n

/-- ISO-8601 rendering (YYYY-MM-DDTHH:MM:SS) of seconds since the epoch. -/
def isoFromSeconds (t : Nat) : String :=
  let c := civilFromDays (t / 86400)
  let secondsOfDay := t % 86400
  Nat.repr c.1 ++ "-" ++ pad2 c.2.1 ++ "-" ++ pad2 c.2.2 ++ "T" ++
    pad2 (secondsOfDay / 3600) ++ ":" ++ pad2 (secondsOfDay % 3600 / 60) ++ ":" ++
    pad2 (secondsOfDay % 60)

/-- Modelled from the spec: the Display form of a `BitMexPriceEventId`
(model crate, not under src/) is
`/x/<source>/<symbol>/<iso-hour>.price?n=<digits>`, concretely with source
BitMEX and symbol BXBT; the daemon unit tests in src/daemon/src/oracle.rs
pin the exact strings. -/
def BitMexPriceEventId.render (e : BitMexPriceEventId) : String :=
  "/x/BitMEX/BXBT/" ++ isoFromSeconds e.timestamp ++ ".price?n=" ++ Nat.repr e.digits

end Oracle

/-! ### Taker connection actor (daemon/src/connection.rs)

Heartbeat bookkeeping. Instants are naturals; `SystemTime::duration_since`
becomes truncated subtraction (the code asserts a monotonic clock). -/

namespace Connection

/-- The connection state of the taker towards the maker: either connected,
remembering the instant of the last received heartbeat and the instant of
the last pulse measurement, or disconnected. -/
inductive State where
  | connected (lastHeartbeat : Nat) (lastPulse : Nat)
  | disconnected
deriving DecidableEq, Repr

/-- The timing configuration of connection::Actor. -/
structure Config where
  heartbeatMeasuringRate : Nat
  makerHeartbeatInterval : Nat
  heartbeatTimeout : Nat
deriving DecidableEq, Repr

/-- Actor::new - the measuring rate is half the maker heartbeat interval
and the disconnect timeout is twice the maker heartbeat interval. -/
def Actor.new (makerHeartbeatInterval : Nat) : Config :=
  { heartbeatMeasuringRate := makerHeartbeatInterval / 2,
    makerHeartbeatInterval := makerHeartbeatInterval,
    heartbeatTimeout := makerHeartbeatInterval * 2 }

/-- State::update_last_pulse_time - record the pulse instant and return the
gap since the previous pulse; fails in the disconnected state. -/
def State.updateLastPulseTime (now : Nat) :
    State → Except String (Nat × State)
  | State.connected hb lp => Except.ok (now - lp, State.connected hb now)
  | State.disconnected => Except.error "Measuring pulse in disconnected state"

/-- State::disconnect_if_last_heartbeat_older_than - transition to
Disconnected (returning true) when the time since the last heartbeat has
reached the timeout; otherwise leave the state alone. -/
def State.disconnectIfLastHeartbeatOlderThan (now timeout : Nat) :
    State → Bool × State
  | State.connected hb lp =>
      if now - hb < timeout then (false, State.connected hb lp)
      else (true, State.disconnected)
  | State.disconnected => (false, State.disconnected)

/-- Actor::handle_measure_pulse - update the pulse time; if the gap between
the last two pulses reached the maker heartbeat interval, return early
without disconnecting (the measuring task lagged); otherwise disconnect if
the last heartbeat is older than the timeout. The boolean of the result
records whether ConnectionStatus::Offline was published. -/
def handleMeasurePulse (cfg : Config) (now : Nat) (s : State) :
    State × Bool :=
  match s.updateLastPulseTime now with
  | Except.ok (delta, s1) =>
      if delta ≥ cfg.makerHeartbeatInterval then (s1, false)
      else
        let r := s1.disconnectIfLastHeartbeatOlderThan now cfg.heartbeatTimeout
        (r.2, r.1)
  | Except.error _ =>
      let r := s.disconnectIfLastHeartbeatOlderThan now cfg.heartbeatTimeout
      (r.2, r.1)

end Connection

/-! ### Supervisor (xtras/src/supervisor.rs)

The restart policy is a closure over the stop reason; metrics count spawns
and panics. Real-time delays of `always_restart_after` are not modelled. -/

namespace Supervisor

/-- The metrics tracked by the supervisor. -/
structure Metrics where
  numSpawns : Nat
  numPanics : Nat
deriving DecidableEq, Repr

/-- Actor::spawn_new - spawn a fresh instance of the supervised actor,
counting the spawn. -/
def spawnNew (m : Metrics) : Metrics :=
  { m with numSpawns := m.numSpawns + 1 }

/-- always_restart - restart on every kind of error. -/
def alwaysRestart {R : Type} : R → Bool := fun _ => true

/-- always_restart_after - restart on every kind of error after a delay
(the delay is real time and not part of this model). -/
def alwaysRestartAfter {R : Type} (_waitTime : Nat) : R → Bool := fun _ => true

/-- Handler for the Stopped message: consult the restart policy on the stop
reason and spawn a new instance exactly when it returns true. The boolean
of the result records whether a new instance was spawned. -/
def handleStopped {R : Type} (restartPolicy : R → Bool) (m : Metrics)
    (reason : R) : Metrics × Bool :=
  let shouldRestart := restartPolicy reason
  if shouldRestart then (spawnNew m, true) else (m, false)

/-- Handler for the Panicked message: count the panic and spawn a new
instance unconditionally. -/
def handlePanicked (m : Metrics) : Metrics × Bool :=
  (spawnNew { m with numPanics := m.numPanics + 1 }, true)

end Supervisor

/-! ### Oracle attestation processing (daemon/src/oracle.rs)

`handle_new_attestation_fetched` walks every CFD in the database and asks
each aggregate to decrypt its CET with the fetched attestation, then
removes the event id from the pending set. -/

namespace Oracle

/-- An oracle attestation: the attested event id and the revealed price
(the scalar signatures are opaque to the daemon and not modelled). -/
structure Attestation where
  id : Nat
  price : Nat
deriving DecidableEq, Repr

/-- The slice of a CFD aggregate that attestation processing touches: the
settlement event id of its current DLC and the attestation recorded so
far, if any. -/
structure AttestationCfd where
  settlementEventId : Nat
  attestation : Option Attestation
deriving DecidableEq, Repr

/-- Modelled from the spec: `Cfd::decrypt_cet` lives in the model crate,
which is not under src/. A contract whose settlement event matches the
attestation records it (enabling the CET); any other contract rejects the
attestation without a state change. -/
def decryptCet (att : Attestation) (cfd : AttestationCfd) :
    Except String AttestationCfd :=
  if cfd.settlementEventId = att.id then
    Except.ok { cfd with attestation := some att }
  else
    Except.error "attestation does not match the settlement event"

/-- The state of the oracle actor relevant to attestation processing: the
pending attestation set and the CFDs of the database, keyed by order id. -/
structure ActorState where
  pendingAttestations : List Nat
  cfds : List (Nat × AttestationCfd)
deriving DecidableEq, Repr

/-- Actor::handle_new_attestation_fetched - execute decrypt_cet on every
CFD in the database (a failed decryption is logged and leaves that CFD
unchanged), then remove the fetched event id from the pending set. -/
def handleNewAttestationFetched (s : ActorState) (eventId : Nat)
    (att : Attestation) : ActorState :=
  { pendingAttestations := s.pendingAttestations.filter (fun e => e ≠ eventId),
    cfds := s.cfds.map (fun c =>
      match decryptCet att c.2 with
      | Except.ok cfd => (c.1, cfd)
      | Except.error _ => c) }

end Oracle

/-! ### Process manager (daemon/src/process_manager.rs)

The handler appends the event to the database and then dispatches the
side effects prescribed for the event kind, finally notifying the UI
projection and the metrics projection. We model the handler as the ordered
list of actions it sends. -/

namespace ProcessManager

/-- monitor::TransactionKind. -/
inductive TxKind where
  | lock
  | commit
  | cet
  | refund
  | collaborativeClose
deriving DecidableEq, Repr

/-- model::EventKind, with exactly the payloads the process manager
reads. -/
inductive EventKind where
  | contractSetupCompleted (dlc : Option Dlc)
  | collaborativeSettlementCompleted (spendTx : Transaction) (script : Nat)
  | cetTimelockExpiredPostOracleAttestation (cet : Transaction)
  | oracleAttestedPostCetTimelock (cet : Transaction)
  | oracleAttestedPriorCetTimelock (timelockedCet : Transaction)
      (commitTx : Option Transaction)
  | manualCommit (tx : Transaction)
  | rolloverCompleted (dlc : Option Dlc)
  | refundTimelockExpired (refundTx : Transaction)
  | refundConfirmed
  | collaborativeSettlementStarted
  | contractSetupStarted
  | contractSetupFailed
  | offerRejected
  | rolloverStarted
  | rolloverAccepted
  | rolloverRejected
  | rolloverFailed
  | collaborativeSettlementProposalAccepted
  | lockConfirmed
  | lockConfirmedAfterFinality
  | commitConfirmed
  | cetConfirmed
  | revokeConfirmed
  | collaborativeSettlementConfirmed
  | collaborativeSettlementRejected
  | collaborativeSettlementFailed
  | cetTimelockExpiredPriorOracleAttestation
deriving DecidableEq, Repr

/-- model::CfdEvent - an event of a contract, keyed by the order id. -/
structure CfdEvent where
  id : Nat
  timestamp : Int
  event : EventKind
deriving DecidableEq, Repr

/-- The messages the process manager sends, in order: the database append,
then the side effects for the event kind, then the two projections. -/
inductive Action where
  | appendEvent (id : Nat) (event : EventKind)
  | tryBroadcastTransaction (tx : Transaction) (kind : TxKind)
  | startMonitoring (id : Nat) (dlc : Dlc)
  | monitorAttestation (eventId : Nat)
  | monitorCetFinality (id : Nat) (cet : Transaction)
  | monitorCollaborativeSettlement (id : Nat) (txid : Nat) (script : Nat)
  | cfdsChanged (id : Nat)
  | cfdChangedMetrics (id : Nat)
deriving DecidableEq, Repr

/-- Step 2 of Actor::handle - the side effects dispatched for the event,
in the order of the source. -/
def sideEffects (role : Role) (ev : CfdEvent) : List Action :=
  match ev.event with
  | EventKind.contractSetupCompleted (some dlc) =>
      [Action.tryBroadcastTransaction dlc.lockTx TxKind.lock,
       Action.startMonitoring ev.id dlc,
       Action.monitorAttestation dlc.settlementEventId]
  | EventKind.collaborativeSettlementCompleted spendTx script =>
      (match role with
        | Role.maker =>
            [Action.tryBroadcastTransaction spendTx TxKind.collaborativeClose]
        | Role.taker => []) ++
        [Action.monitorCollaborativeSettlement ev.id spendTx.txid script]
  | EventKind.cetTimelockExpiredPostOracleAttestation cet =>
      [Action.monitorCetFinality ev.id cet,
       Action.tryBroadcastTransaction cet TxKind.cet]
  | EventKind.oracleAttestedPostCetTimelock cet =>
      [Action.monitorCetFinality ev.id cet,
       Action.tryBroadcastTransaction cet TxKind.cet]
  | EventKind.oracleAttestedPriorCetTimelock _ (some commitTx) =>
      [Action.tryBroadcastTransaction commitTx TxKind.commit]
  | EventKind.manualCommit tx =>
      [Action.tryBroadcastTransaction tx TxKind.commit]
  | EventKind.oracleAttestedPriorCetTimelock cet none =>
      [Action.monitorCetFinality ev.id cet]
  | EventKind.rolloverCompleted (some dlc) =>
      [Action.startMonitoring ev.id dlc,
       Action.monitorAttestation dlc.settlementEventId]
  | EventKind.refundTimelockExpired tx =>
      [Action.tryBroadcastTransaction tx TxKind.refund]
  | EventKind.contractSetupCompleted none
  | EventKind.rolloverCompleted none
  | EventKind.refundConfirmed
  | EventKind.collaborativeSettlementStarted
  | EventKind.contractSetupStarted
  | EventKind.contractSetupFailed
  | EventKind.offerRejected
  | EventKind.rolloverStarted
  | EventKind.rolloverAccepted
  | EventKind.rolloverRejected
  | EventKind.rolloverFailed
  | EventKind.collaborativeSettlementProposalAccepted
  | EventKind.lockConfirmed
  | EventKind.lockConfirmedAfterFinality
  | EventKind.commitConfirmed
  | EventKind.cetConfirmed
  | EventKind.revokeConfirmed
  | EventKind.collaborativeSettlementConfirmed
  | EventKind.collaborativeSettlementRejected
  | EventKind.collaborativeSettlementFailed
  | EventKind.cetTimelockExpiredPriorOracleAttestation => []

/-- Actor::handle - append the event to the database first, then dispatch
the side effects for its kind, then notify the UI projection and the
metrics projection. -/
def handle (role : Role) (ev : CfdEvent) : List Action :=
  Action.appendEvent ev.id ev.event ::
    (sideEffects role ev ++
      [Action.cfdsChanged ev.id, Action.cfdChangedMetrics ev.id])

end ProcessManager

/-! ### Rollover fee accounting (daemon-tests/tests/main/rollover.rs)

The rollover protocol itself lives in the model and rollover crates, which
are not under src/ - only the integration tests are. The model below is
built from the spec. -/

namespace Rollover

/-- Modelled from the spec: the daemon-tests FeeCalculator (not under
src/). `for_rollover_hours h` charges one per-side funding-fee term per 24
rollover hours; the result is the pair (maker fee, taker fee). -/
structure FeeCalculator where
  makerTermFee : Int
  takerTermFee : Int
deriving DecidableEq, Repr

/-- Modelled from the spec: accumulated fees for h rollover hours, on the
maker and taker side respectively. -/
def FeeCalculator.forRolloverHours (fc : FeeCalculator) (hours : Nat) :
    Int × Int :=
  (fc.makerTermFee * (hours / 24 : Nat), fc.takerTermFee * (hours / 24 : Nat))

/-- Modelled from the spec: the slice of a DLC that rollover retry uses -
its commit txid and settlement event id (the from-parameters of a retry)
together with the accumulated fees on both sides at the time this DLC
became active. -/
structure RolloverDlc where
  commitTxid : Nat
  settlementEventId : Nat
  feesMaker : Int
  feesTaker : Int
deriving DecidableEq, Repr

/-- Modelled from the spec: a contract as seen by the rollover protocol -
the active DLC and all DLCs that were ever active, most recent first. The
accumulated fees of the contract are those of the active DLC. -/
structure RolloverCfd where
  latestDlc : RolloverDlc
  history : List RolloverDlc
deriving DecidableEq, Repr

/-- Modelled from the spec: completing a rollover replaces the active DLC
by a new one whose accumulated fees add one full 24-hour funding-fee term
on top of the base DLC - the DLC identified by the optional from-parameters
(commit txid and settlement event id), defaulting to the currently active
DLC. Per the rollover tests, a retry always charges exactly one full term
on top of its base (fallback to one full term when the event is already
past expiry), so a repeated epoch is not charged twice. Fails when the
from-parameters match no known DLC. -/
def completeRollover (fc : FeeCalculator) (cfd : RolloverCfd)
    (fromParams : Option (Nat × Nat))
    (newCommitTxid newSettlementEventId : Nat) : Option RolloverCfd :=
  let base? := match fromParams with
    | none => some cfd.latestDlc
    | some (txid, eid) =>
        cfd.history.find? (fun d =>
          d.commitTxid == txid && d.settlementEventId == eid)
  base?.map (fun base =>
    let newDlc : RolloverDlc :=
      { commitTxid := newCommitTxid,
        settlementEventId := newSettlementEventId,
        feesMaker := base.feesMaker + fc.makerTermFee,
        feesTaker := base.feesTaker + fc.takerTermFee }
    { latestDlc := newDlc, history := newDlc :: cfd.history })

end Rollover

/-! ### Inverse payouts (crates/model/src/payouts.rs)

`Payouts::new_inverse` runs the payout-curve calculation and then
overwrites the upper bound of the last payout interval with the maximum
price the oracle can attest to. -/

namespace Payouts

/-- maia_core::interval::MAX_PRICE_DEC - the largest price attestable with
20 binary digits (external constant of the maia library). -/
def MAX_PRICE_DEC : Nat := 1048575

/-- One piece of the payout curve as returned by payouts::inverse::calculate:
an inclusive price interval and the long and short payout amounts. -/
structure PiecePayout where
  rangeLo : Nat
  rangeHi : Nat
  long : Nat
  short : Nat
deriving DecidableEq, Repr, Inhabited

/-- A payout as produced by maia_core::generate_payouts: an inclusive price
interval with the two party amounts in protocol order. -/
structure GeneratedPayout where
  rangeLo : Nat
  rangeHi : Nat
  offerAmount : Nat
  acceptAmount : Nat
deriving DecidableEq, Repr, Inhabited

/-- Modelled from the spec: maia_core::generate_payouts is an external
library primitive (the adaptor-signature library is consumed at interface
level); it compiles a price range and the two amounts into the payouts
covering exactly that range. -/
def generatePayouts (lo hi a b : Nat) : List GeneratedPayout :=
  [{ rangeLo := lo, rangeHi := hi, offerAmount := a, acceptAmount := b }]

/-- The result of Payouts::new_inverse. -/
structure Payouts where
  settlement : List GeneratedPayout
  longLiquidation : GeneratedPayout
  shortLiquidation : GeneratedPayout
deriving DecidableEq, Repr

/-- Payouts::new_inverse, parametrised by the output of the payout-curve
calculation payouts::inverse::calculate: overwrite the upper bound of the
last calculated interval with MAX_PRICE_DEC, compile every piece through
generate_payouts (amount order depending on position and role), and take
the first and last settlement payouts as the long and short liquidation
payouts. The Rust code panics on an empty curve; here this is an error. -/
def newInverse (position : Position) (role : Role)
    (calculated : List PiecePayout) : Except String Payouts :=
  match calculated with
  | [] => Except.error "several payouts"
  | p :: ps =>
    let lastP := (p :: ps).getLast (List.cons_ne_nil p ps)
    let payouts :=
      (p :: ps).dropLast ++ [{ lastP with rangeHi := MAX_PRICE_DEC }]
    let settlement :=
      match position, role with
      | Position.long, Role.taker | Position.short, Role.maker =>
          (payouts.map (fun q =>
            generatePayouts q.rangeLo q.rangeHi q.short q.long)).flatten
      | Position.short, Role.taker | Position.long, Role.maker =>
          (payouts.map (fun q =>
            generatePayouts q.rangeLo q.rangeHi q.long q.short)).flatten
    Except.ok
      { settlement := settlement,
        longLiquidation := settlement.headI,
        shortLiquidation := settlement.getLastI }

end Payouts

end Hermes

namespace Hermes

/-! ## Theorems -/

/-- C4: loading an aggregate through the cache is equivalent to rebuilding
it from scratch: folding the events whose sequence exceeds the cached
version onto the cached aggregate equals folding the complete event list
onto a fresh aggregate, provided the cache entry was produced by folding
the first `version` events onto the fresh aggregate (and a fresh aggregate
has version 0). -/
theorem load_open_cfd_cache_equiv {α E : Type} (apply : α → E → α)
    (version : α → Nat) (fresh : α) (cached : α) (events : List E)
    (hfresh : version fresh = 0)
    (hcache : cached = (events.take (version cached)).foldl apply fresh) :
    Db.loadOpenCfd apply version fresh (some cached) events =
      Db.loadOpenCfd apply version fresh none events := by
  unfold Db.loadOpenCfd Db.loadCfdEvents
  simp only [hfresh, List.drop_zero]
  conv_rhs => rw [← List.take_append_drop (version cached) events]
  rw [List.foldl_append, ← hcache]

/-- C4 witness: a concrete cache entry built from the first two events of
a four-event log loads to the same aggregate as a rebuild from scratch. -/
theorem load_open_cfd_cache_equiv_witness :
    Db.loadOpenCfd (fun (a : Nat) (_ : Nat) => a + 1) (fun a => a)
        0 (some 2) [1, 2, 3, 4] =
      Db.loadOpenCfd (fun (a : Nat) (_ : Nat) => a + 1) (fun a => a)
        0 none [1, 2, 3, 4] :=
  load_open_cfd_cache_equiv (fun a _ => a + 1) (fun a => a) 0 2
    [1, 2, 3, 4] (by decide) (by decide)

/-- C7 counterexample: for a timestamp lying exactly on a full hour
(2021-09-23T10:00:00, epoch 1632391200), the code does NOT return that
same hour: it returns the following hour 2021-09-23T11:00:00. -/
theorem next_announcement_after_full_hour_counterexample :
    1632391200 % 3600 = 0 ∧
      (Oracle.nextAnnouncementAfter 1632391200).timestamp ≠ 1632391200 ∧
      (Oracle.nextAnnouncementAfter 1632391200).timestamp = 1632391200 + 3600 := by
  refine ⟨by norm_num, ?_, ?_⟩ <;>
    simp [Oracle.nextAnnouncementAfter, Oracle.ceilToNextHour]

/-- C7 (amended): next_announcement_after(t) returns the event id of the
next full-hour boundary STRICTLY after t - for t not on a full hour that
is the ceiling of t to the next full hour, while for t exactly on a full
hour it is one hour after t - with 20 price digits; the two unit tests of
src/daemon/src/oracle.rs pin the rendered string form
`/x/BitMEX/BXBT/<iso-hour>.price?n=20`. -/
theorem next_announcement_after_spec (t : Nat) :
    (Oracle.nextAnnouncementAfter t).timestamp % 3600 = 0 ∧
      t < (Oracle.nextAnnouncementAfter t).timestamp ∧
      (Oracle.nextAnnouncementAfter t).timestamp ≤ t + 3600 ∧
      (Oracle.nextAnnouncementAfter t).digits = 20 ∧
      (Oracle.nextAnnouncementAfter 1632393600).render =
        "/x/BitMEX/BXBT/2021-09-23T11:00:00.price?n=20" ∧
      (Oracle.nextAnnouncementAfter 1632440400).render =
        "/x/BitMEX/BXBT/2021-09-24T00:00:00.price?n=20" := by
  have hdm := Nat.div_add_mod (t + 3600) 3600
  have hlt : (t + 3600) % 3600 < 3600 := Nat.mod_lt _ (by norm_num)
  refine ⟨?_, ?_, ?_, rfl, by rfl, by rfl⟩
  · simp [Oracle.nextAnnouncementAfter, Oracle.ceilToNextHour]
  · simp only [Oracle.nextAnnouncementAfter, Oracle.ceilToNextHour]
    omega
  · simp only [Oracle.nextAnnouncementAfter, Oracle.ceilToNextHour]
    omega

/-- C6 counterexample: a pulse-measurement tick on which the time since
the last heartbeat (100) is at least the disconnect timeout (20) but the
actor stays Connected and publishes nothing, because the gap between the
last two pulse measurements (100) reached the heartbeat interval (10). -/
theorem taker_disconnect_iff_counterexample :
    (Connection.Actor.new 10).heartbeatTimeout ≤ 100 - 0 ∧
      Connection.handleMeasurePulse (Connection.Actor.new 10) 100
          (Connection.State.connected 0 0) =
        (Connection.State.connected 0 100, false) := by
  decide

/-- C6 (amended): the disconnect timeout is twice the maker heartbeat
interval, and on a pulse-measurement tick whose measured pulse gap is
smaller than the heartbeat interval the actor transitions from Connected
to Disconnected publishing ConnectionStatus::Offline if and only if the
time since the last received heartbeat is at least the timeout. -/
theorem taker_disconnects_after_two_missed_heartbeats
    (itv now hb lp : Nat) (hpulse : now - lp < itv) :
    (Connection.Actor.new itv).heartbeatTimeout = 2 * itv ∧
      (((Connection.handleMeasurePulse (Connection.Actor.new itv) now
            (Connection.State.connected hb lp)).1 = Connection.State.disconnected ∧
          (Connection.handleMeasurePulse (Connection.Actor.new itv) now
            (Connection.State.connected hb lp)).2 = true) ↔ 2 * itv ≤ now - hb) := by
  have hno : ¬ (now - lp ≥ itv) := by omega
  refine ⟨by simp [Connection.Actor.new, Nat.mul_comm], ?_⟩
  by_cases hhb : now - hb < itv * 2 <;>
    simp [Connection.handleMeasurePulse, Connection.State.updateLastPulseTime,
      Connection.State.disconnectIfLastHeartbeatOlderThan, Connection.Actor.new,
      hno, hhb] <;>
    omega

/-- C6 witness: with heartbeat interval 10, a timely tick (pulse gap 5) at
instant 100 with the last heartbeat at instant 0 disconnects and publishes
Offline. -/
theorem taker_disconnects_after_two_missed_heartbeats_witness :
    (Connection.Actor.new 10).heartbeatTimeout = 2 * 10 ∧
      (Connection.handleMeasurePulse (Connection.Actor.new 10) 100
          (Connection.State.connected 0 95)).1 = Connection.State.disconnected ∧
      (Connection.handleMeasurePulse (Connection.Actor.new 10) 100
          (Connection.State.connected 0 95)).2 = true := by
  have h := taker_disconnects_after_two_missed_heartbeats 10 100 0 95 (by decide)
  exact ⟨h.1, h.2.mpr (by decide)⟩

/-- C10: on a pulse-measurement tick whose measured gap between the last
two pulses is at least the maker heartbeat interval, the taker stays
Connected (only the pulse time is updated) and nothing is published, no
matter how old the last heartbeat is. -/
theorem measure_pulse_lag_defers_disconnect
    (itv now hb lp : Nat) (hlag : itv ≤ now - lp) :
    Connection.handleMeasurePulse (Connection.Actor.new itv) now
        (Connection.State.connected hb lp) =
      (Connection.State.connected hb now, false) := by
  simp [Connection.handleMeasurePulse, Connection.State.updateLastPulseTime,
    Connection.Actor.new, hlag]

/-- C10 witness: with interval 10, a lagged tick (pulse gap 100) keeps the
state Connected and publishes nothing although the last heartbeat is far
older than the disconnect timeout. -/
theorem measure_pulse_lag_defers_disconnect_witness :
    (Connection.Actor.new 10).heartbeatTimeout ≤ 100 - 0 ∧
      Connection.handleMeasurePulse (Connection.Actor.new 10) 100
          (Connection.State.connected 0 0) =
        (Connection.State.connected 0 100, false) :=
  ⟨by decide, measure_pulse_lag_defers_disconnect 10 100 0 0 (by decide)⟩

/-- C9 counterexample: under a restart policy that never restarts, the
Stopped handler does not respawn the child, but the Panicked handler still
respawns it - the panic path does not consult the policy, so the child is
not restarted "per the configured restart policy" on panic. -/
theorem supervisor_panic_ignores_policy_counterexample :
    (Supervisor.handleStopped (fun _ : Unit => false) ⟨1, 0⟩ ()).2 = false ∧
      (Supervisor.handlePanicked ⟨1, 0⟩).2 = true ∧
      (Supervisor.handlePanicked ⟨1, 0⟩).1.numSpawns = 2 := by
  decide

/-- C9 (amended): when the supervised child stops with a reason, a new
instance is spawned if and only if the restart policy applied to that
reason returns true; when the child panics, the supervisor counts the
panic and spawns a new instance unconditionally, regardless of the policy.
The stock policies `always_restart` and `always_restart_after` return true
for every reason. -/
theorem supervisor_restart_policy {R : Type} (policy : R → Bool)
    (m : Supervisor.Metrics) (reason : R) (w : Nat) :
    (Supervisor.handleStopped policy m reason).2 = policy reason ∧
      (Supervisor.handleStopped policy m reason).1 =
        (if policy reason then Supervisor.spawnNew m else m) ∧
      (Supervisor.handlePanicked m).2 = true ∧
      (Supervisor.handlePanicked m).1.numSpawns = m.numSpawns + 1 ∧
      (Supervisor.handlePanicked m).1.numPanics = m.numPanics + 1 ∧
      Supervisor.alwaysRestart reason = true ∧
      Supervisor.alwaysRestartAfter w reason = true := by
  cases h : policy reason <;>
    simp [Supervisor.handleStopped, Supervisor.handlePanicked,
      Supervisor.spawnNew, Supervisor.alwaysRestart,
      Supervisor.alwaysRestartAfter, h]

/-- C8: when an attestation fetched for an event id is processed, every
contract in the database is passed to decrypt_cet: contracts whose
settlement event matches the attested event record the attestation, all
other contracts are left unchanged (they reject the attestation), and the
fetched event id is removed from the pending-attestation set regardless of
how many decryptions succeeded, while other pending ids stay. -/
theorem oracle_attestation_dispatch (s : Oracle.ActorState) (eventId : Nat)
    (att : Oracle.Attestation) :
    (∀ c ∈ s.cfds,
        (c.2.settlementEventId = att.id →
          (c.1, { c.2 with attestation := some att }) ∈
            (Oracle.handleNewAttestationFetched s eventId att).cfds) ∧
        (c.2.settlementEventId ≠ att.id →
          c ∈ (Oracle.handleNewAttestationFetched s eventId att).cfds)) ∧
      eventId ∉ (Oracle.handleNewAttestationFetched s eventId att).pendingAttestations ∧
      (∀ e ∈ s.pendingAttestations, e ≠ eventId →
        e ∈ (Oracle.handleNewAttestationFetched s eventId att).pendingAttestations) ∧
      (Oracle.handleNewAttestationFetched s eventId att).cfds.length =
        s.cfds.length := by
  refine ⟨?_, ?_, ?_, by simp [Oracle.handleNewAttestationFetched]⟩
  · intro c hc
    constructor
    · intro hmatch
      simp only [Oracle.handleNewAttestationFetched]
      exact List.mem_map.mpr ⟨c, hc, by simp [Oracle.decryptCet, hmatch]⟩
    · intro hmiss
      simp only [Oracle.handleNewAttestationFetched]
      exact List.mem_map.mpr ⟨c, hc, by simp [Oracle.decryptCet, hmiss]⟩
  · simp [Oracle.handleNewAttestationFetched, List.mem_filter]
  · intro e he hne
    simp [Oracle.handleNewAttestationFetched, List.mem_filter, he, hne]

/-- C8 witness: a concrete database with one matching and one
non-matching contract and pending set containing the fetched id 5 and the
unrelated id 7. -/
theorem oracle_attestation_dispatch_witness :
    (1, ⟨5, some ⟨5, 42⟩⟩) ∈
        (Oracle.handleNewAttestationFetched ⟨[5, 7], [(1, ⟨5, none⟩), (2, ⟨9, none⟩)]⟩
          5 ⟨5, 42⟩).cfds ∧
      (2, ⟨9, none⟩) ∈
        (Oracle.handleNewAttestationFetched ⟨[5, 7], [(1, ⟨5, none⟩), (2, ⟨9, none⟩)]⟩
          5 ⟨5, 42⟩).cfds ∧
      5 ∉ (Oracle.handleNewAttestationFetched ⟨[5, 7], [(1, ⟨5, none⟩), (2, ⟨9, none⟩)]⟩
          5 ⟨5, 42⟩).pendingAttestations ∧
      7 ∈ (Oracle.handleNewAttestationFetched ⟨[5, 7], [(1, ⟨5, none⟩), (2, ⟨9, none⟩)]⟩
          5 ⟨5, 42⟩).pendingAttestations := by
  have h := oracle_attestation_dispatch ⟨[5, 7], [(1, ⟨5, none⟩), (2, ⟨9, none⟩)]⟩
    5 ⟨5, 42⟩
  exact ⟨(h.1 (1, ⟨5, none⟩) (by simp)).1 rfl,
    (h.1 (2, ⟨9, none⟩) (by simp)).2 (by decide),
    h.2.1,
    h.2.2.1 7 (by simp) (by decide)⟩

/-- Folding one event into the closed-CFD aggregate never changes the
contract id. -/
theorem apply_preserves_id (a : Db.ClosedCfdInputAggregate) (e : Db.CfdEvent)
    (b : Db.ClosedCfdInputAggregate)
    (h : Db.ClosedCfdInputAggregate.apply a e = Except.ok b) : b.id = a.id := by
  cases e with
  | mk ts kind =>
    cases kind <;>
      simp only [Db.ClosedCfdInputAggregate.apply] at h <;>
      (repeat' split at h) <;>
      (try cases h) <;> rfl

/-- Binding an error in the Except monad is the error. -/
theorem except_error_bind {ε α β : Type} (e : ε) (f : α → Except ε β) :
    (Except.error e >>= f) = Except.error e := rfl

/-- Binding a success in the Except monad applies the continuation. -/
theorem except_ok_bind {ε α β : Type} (a : α) (f : α → Except ε β) :
    (Except.ok a >>= f) = f a := rfl

/-- Folding any event list into the closed-CFD aggregate never changes the
contract id. -/
theorem foldlM_apply_preserves_id (evs : List Db.CfdEvent)
    (a b : Db.ClosedCfdInputAggregate)
    (h : evs.foldlM Db.ClosedCfdInputAggregate.apply a = Except.ok b) :
    b.id = a.id := by
  induction evs generalizing a with
  | nil =>
    simp only [List.foldlM_nil, pure, Except.pure] at h
    cases h
    rfl
  | cons e rest ih =>
    rw [List.foldlM_cons] at h
    cases hae : Db.ClosedCfdInputAggregate.apply a e with
    | error msg => rw [hae, except_error_bind] at h; cases h
    | ok a1 =>
      rw [hae, except_ok_bind] at h
      exact (ih a1 h).trans (apply_preserves_id a e a1 hae)

/-- Building the closed-CFD input keeps the contract id. -/
theorem build_preserves_id (a : Db.ClosedCfdInputAggregate)
    (c : Db.ClosedCfdInput)
    (h : Db.ClosedCfdInputAggregate.build a = Except.ok c) : c.id = a.id := by
  simp only [Db.ClosedCfdInputAggregate.build] at h
  repeat' split at h
  all_goals (try cases h) <;> rfl

/-- When the satellite insert step succeeds, only satellite tables grow:
the inserted rows match the closed row, the other tables are untouched and
no satellite row is lost. -/
theorem satelliteInserts_ok (s : Db.DbState) (id : Nat)
    (closed : Db.ClosedCfdInput) (t : Db.DbState)
    (h : Db.satelliteInserts s id closed = Except.ok t) :
    t.cfds = s.cfds ∧ t.events = s.events ∧ t.closedCfds = s.closedCfds ∧
      t.eventLog = s.eventLog ∧ Db.satellitesPresent t id closed ∧
      (∀ x ∈ s.collaborativeSettlementTxs, x ∈ t.collaborativeSettlementTxs) ∧
      (∀ x ∈ s.commitTxs, x ∈ t.commitTxs) ∧
      (∀ x ∈ s.cets, x ∈ t.cets) ∧
      (∀ x ∈ s.refundTxs, x ∈ t.refundTxs) := by
  simp only [Db.satelliteInserts] at h
  repeat' split at h
  all_goals cases h
  all_goals
    refine ⟨rfl, rfl, rfl, rfl, ⟨?_, ?_, ?_, ?_⟩, ?_, ?_, ?_, ?_⟩ <;>
      (intro y hy) <;> simp_all [Db.satellitesPresent, List.mem_append]

/-- A successful load_cfd_row means the row is in the cfds table. -/
theorem loadCfdRow_mem (s : Db.DbState) (i : Nat) (r : Db.CfdRow)
    (h : Db.loadCfdRow s i = Except.ok r) : (i, r) ∈ s.cfds := by
  simp only [Db.loadCfdRow] at h
  split at h
  · rename_i c hfind
    cases h
    have hmem := List.mem_of_find?_eq_some hfind
    have hid : c.1 = i := by
      have := List.find?_some hfind
      simpa using this
    have : c = (i, c.2) := by
      cases c
      simp_all
    rw [← this]
    exact hmem
  · cases h

/-- When the per-contract move transaction succeeds, the live rows of the
contract are deleted, a closed row with that id together with its
satellite rows and the event-log copy is inserted, and nothing else is
removed. -/
theorem moveOne_ok (s : Db.DbState) (i : Nat) (t : Db.DbState)
    (h : Db.moveOne s i = Except.ok t) :
    (∃ r, (i, r) ∈ s.cfds) ∧
      t.cfds = s.cfds.filter (fun c => c.1 != i) ∧
      t.events = s.events.filter (fun e => e.1 != i) ∧
      (∃ closed, closed.id = i ∧ t.closedCfds = s.closedCfds ++ [closed] ∧
        Db.satellitesPresent t i closed) ∧
      t.eventLog = s.eventLog ++
        ((s.events.filter (fun e => e.1 == i)).map
          (fun e => (i, Db.kindName e.2.kind, e.2.timestamp))) ∧
      (∀ x ∈ s.collaborativeSettlementTxs, x ∈ t.collaborativeSettlementTxs) ∧
      (∀ x ∈ s.commitTxs, x ∈ t.commitTxs) ∧
      (∀ x ∈ s.cets, x ∈ t.cets) ∧
      (∀ x ∈ s.refundTxs, x ∈ t.refundTxs) := by
  simp only [Db.moveOne] at h
  split at h
  · cases h
  · rename_i cfd hrow
    split at h
    · cases h
    · rename_i agg hfold
      split at h
      · cases h
      · rename_i closed hbuild
        split at h
        · cases h
        · rename_i s2 hsat
          split at h
          · cases h
          · rename_i hlen1
            split at h
            · cases h
            · rename_i hlen2
              cases h
              obtain ⟨hc, he, hcl, hel, hpres, hm1, hm2, hm3, hm4⟩ :=
                satelliteInserts_ok _ _ _ _ hsat
              refine ⟨⟨cfd, loadCfdRow_mem _ _ _ hrow⟩, by simp [hc], by simp [he],
                ⟨closed, ?_, by simp [hcl], hpres⟩, ?_, hm1, hm2, hm3, hm4⟩
              · exact (build_preserves_id _ _ hbuild).trans
                  (foldlM_apply_preserves_id _ _ _ hfold)
              · rw [show (_ : Db.DbState).eventLog = s2.eventLog from rfl, hel]
                simp [List.map_map]

/-- Removing the rows of one contract leaves no row of that contract. -/
theorem filter_ne_filter_eq_nil {α : Type} (l : List (Nat × α)) (i : Nat) :
    (l.filter (fun c => c.1 != i)).filter (fun c => c.1 == i) = [] := by
  induction l with
  | nil => rfl
  | cons a t ih => by_cases h : a.1 = i <;> simp [h, ih]

/-- Removing the rows of one contract does not change the rows of
another. -/
theorem filter_ne_filter_eq_of_ne {α : Type} (l : List (Nat × α))
    (i j : Nat) (h : i ≠ j) :
    (l.filter (fun c => c.1 != i)).filter (fun c => c.1 == j) =
      l.filter (fun c => c.1 == j) := by
  induction l with
  | nil => rfl
  | cons a t ih =>
    by_cases h1 : a.1 = i
    · have e1 : (a.1 != i) = false := by simp [h1]
      have e2 : (a.1 == j) = false := by simp; omega
      simp [List.filter_cons, e1, e2, ih, -List.filter_filter]
    · have e1 : (a.1 != i) = true := by simp [h1]
      by_cases h2 : a.1 = j
      · have e2 : (a.1 == j) = true := by simp [h2]
        simp [List.filter_cons, e1, e2, ih, -List.filter_filter]
      · have e2 : (a.1 == j) = false := by simp [h2]
        simp [List.filter_cons, e1, e2, ih, -List.filter_filter]

/-- Rows built for one contract id all survive a filter on that id. -/
theorem filter_map_fst_self {α β : Type} (l : List β) (i : Nat) (f : β → α) :
    (l.map (fun b => (i, f b))).filter (fun x => x.1 == i) =
      l.map (fun b => (i, f b)) := by
  induction l with
  | nil => rfl
  | cons a t ih => simp [ih]

/-- Appending rows of a different contract does not change the rows of a
contract. -/
theorem filter_append_of_ne {α β : Type} (l : List (Nat × α)) (add : List β)
    (i j : Nat) (h : i ≠ j) (f : β → α) :
    ((l ++ add.map (fun b => (i, f b))).filter (fun x => x.1 == j)) =
      l.filter (fun x => x.1 == j) := by
  rw [List.filter_append]
  have : (add.map (fun b => (i, f b))).filter (fun x => x.1 == j) = [] := by
    induction add with
    | nil => rfl
    | cons a t ih => simp [h, ih]
  rw [this, List.append_nil]

/-- One loop iteration of move_to_closed_cfds preserves, for every
contract, the invariant of being either fully moved or untouched in the
live tables. -/
theorem moveStep_preserves (s0 : Db.DbState) (id : Nat) (s : Db.DbState)
    (i : Nat) (hP : Db.movedOut s0 s id ∨ Db.liveUnchanged s0 s id) :
    Db.movedOut s0 (Db.moveStep s i) id ∨
      Db.liveUnchanged s0 (Db.moveStep s i) id := by
  cases hmo : Db.moveOne s i with
  | error e => simpa [Db.moveStep, hmo] using hP
  | ok t =>
    obtain ⟨⟨r, hr⟩, hcf, hev, ⟨closed, hcid, hccl, hcsat⟩, hlog, hm1, hm2,
      hm3, hm4⟩ := moveOne_ok s i t hmo
    have hstep : Db.moveStep s i = t := by simp [Db.moveStep, hmo]
    rw [hstep]
    by_cases hii : i = id
    · subst hii
      cases hP with
      | inl hmoved =>
        exfalso
        obtain ⟨hnil, _, _⟩ := hmoved
        have hmem : (i, r) ∈ s.cfds.filter (fun c => c.1 == i) :=
          List.mem_filter.mpr ⟨hr, by simp⟩
        rw [hnil] at hmem
        exact absurd hmem (List.not_mem_nil _)
      | inr hlive =>
        left
        refine ⟨?_, ?_, closed, ?_, hcid, hcsat, ?_⟩
        · rw [hcf]
          exact filter_ne_filter_eq_nil s.cfds i
        · rw [hev]
          exact filter_ne_filter_eq_nil s.events i
        · rw [hccl]
          exact List.mem_append_right _ (List.mem_singleton_self closed)
        · rw [hlog, hlive.2,
            show (fun e : Nat × Db.CfdEvent =>
                (i, Db.kindName e.2.kind, e.2.timestamp)) =
              (fun e : Nat × Db.CfdEvent =>
                (i, ((fun x : Nat × Db.CfdEvent =>
                  (Db.kindName x.2.kind, x.2.timestamp)) e))) from rfl,
            List.filter_append, filter_map_fst_self]
          exact ⟨s.eventLog.filter (fun l => l.1 == i), rfl⟩
    · cases hP with
      | inl hmoved =>
        left
        obtain ⟨h1, h2, c, hmem, hc1, hsat, hsuf⟩ := hmoved
        refine ⟨?_, ?_, c, ?_, hc1, ?_, ?_⟩
        · rw [hcf, filter_ne_filter_eq_of_ne _ _ _ hii, h1]
        · rw [hev, filter_ne_filter_eq_of_ne _ _ _ hii, h2]
        · rw [hccl]
          exact List.mem_append_left _ hmem
        · exact ⟨fun cs hcs => hm1 _ (hsat.1 cs hcs),
            fun cm hcm => hm2 _ (hsat.2.1 cm hcm),
            fun ct hct => hm3 _ (hsat.2.2.1 ct hct),
            fun rr hrr => hm4 _ (hsat.2.2.2 rr hrr)⟩
        · rw [hlog,
            show (fun e : Nat × Db.CfdEvent =>
                (i, Db.kindName e.2.kind, e.2.timestamp)) =
              (fun e : Nat × Db.CfdEvent =>
                (i, ((fun x : Nat × Db.CfdEvent =>
                  (Db.kindName x.2.kind, x.2.timestamp)) e))) from rfl,
            filter_append_of_ne _ _ _ _ hii]
          exact hsuf
      | inr hlive =>
        right
        constructor
        · rw [hcf, filter_ne_filter_eq_of_ne _ _ _ hii, hlive.1]
        · rw [hev, filter_ne_filter_eq_of_ne _ _ _ hii, hlive.2]

/-- The whole loop of move_to_closed_cfds preserves the per-contract
invariant. -/
theorem foldl_moveStep_preserves (s0 : Db.DbState) (id : Nat)
    (ids : List Nat) (s : Db.DbState)
    (hP : Db.movedOut s0 s id ∨ Db.liveUnchanged s0 s id) :
    Db.movedOut s0 (ids.foldl Db.moveStep s) id ∨
      Db.liveUnchanged s0 (ids.foldl Db.moveStep s) id := by
  induction ids generalizing s with
  | nil => simpa using hP
  | cons i rest ih => exact ih _ (moveStep_preserves s0 id s i hP)

/-- A contract is selected for archival exactly when it is live and has a
terminal on-chain event. -/
theorem mem_closedCfdIds_iff (s : Db.DbState) (id : Nat) :
    id ∈ Db.closedCfdIdsAccordingToTheBlockchain s ↔
      (∃ r, (id, r) ∈ s.cfds) ∧
        ∃ e ∈ s.events, e.1 = id ∧
          Db.isTerminalName (Db.kindName e.2.kind) = true := by
  simp only [Db.closedCfdIdsAccordingToTheBlockchain, List.mem_map,
    List.mem_filter, List.any_eq_true, Bool.and_eq_true, beq_iff_eq]
  constructor
  · rintro ⟨c, ⟨hcmem, e, hemem, he1, hterm⟩, rfl⟩
    exact ⟨⟨c.2, hcmem⟩, e, hemem, he1, hterm⟩
  · rintro ⟨⟨r, hr⟩, e, he, he1, hterm⟩
    exact ⟨(id, r), ⟨hr, e, he, he1, hterm⟩, rfl⟩

/-- Flattening a map that produces singleton lists is a plain map. -/
theorem flatten_map_singleton {α β : Type} (g : α → β) (l : List α) :
    (l.map (fun a => [g a])).flatten = l.map g := by
  induction l with
  | nil => rfl
  | cons a t ih => simp [ih]

/-- The last element (with default) of a list ending in x is x. -/
theorem getLastI_concat {α : Type} [Inhabited α] (l : List α) (x : α) :
    (l ++ [x]).getLastI = x := by
  simp [List.getLastI_eq_getLast?, List.getLast?_concat]

/-- A list ending in a payout whose interval contains the price covers the
price. -/
theorem exists_cover_concat (l : List Payouts.GeneratedPayout)
    (x : Payouts.GeneratedPayout) (price : Nat) (h1 : x.rangeLo ≤ price)
    (h2 : price ≤ x.rangeHi) :
    ∃ q ∈ l ++ [x], q.rangeLo ≤ price ∧ price ≤ q.rangeHi :=
  ⟨x, List.mem_append_right _ (List.mem_singleton_self x), h1, h2⟩

/-- C5: for every successful construction of inverse payouts, the last
payout of the settlement list - the short-liquidation payout - has its
upper bound equal to the maximum price representable by the oracle
(MAX_PRICE_DEC) while its lower bound is the one produced by the
payout-curve calculation, so the union of the CET price ranges covers
every attestable price above the start of the last curve interval. -/
theorem payouts_new_inverse_short_liquidation (position : Position)
    (role : Role) (calculated : List Payouts.PiecePayout)
    (h : calculated ≠ []) :
    ∃ ps : Payouts.Payouts,
      Payouts.newInverse position role calculated = Except.ok ps ∧
        ps.settlement.getLastI = ps.shortLiquidation ∧
        ps.shortLiquidation.rangeHi = Payouts.MAX_PRICE_DEC ∧
        ps.shortLiquidation.rangeLo = (calculated.getLast h).rangeLo ∧
        ∀ price : Nat, (calculated.getLast h).rangeLo ≤ price →
          price ≤ Payouts.MAX_PRICE_DEC →
          ∃ q ∈ ps.settlement, q.rangeLo ≤ price ∧ price ≤ q.rangeHi := by
  cases calculated with
  | nil => exact absurd rfl h
  | cons p ps' =>
    cases position <;> cases role
    all_goals (
      refine ⟨_, rfl, rfl, ?_, ?_, ?_⟩
      · simp [Payouts.newInverse, Payouts.generatePayouts,
          flatten_map_singleton, getLastI_concat]
      · simp [Payouts.newInverse, Payouts.generatePayouts,
          flatten_map_singleton, getLastI_concat]
      · intro price hlo hhi
        simp only [Payouts.newInverse, Payouts.generatePayouts,
          List.map_append, List.map_cons, List.map_nil, List.flatten_append,
          flatten_map_singleton, List.flatten_cons, List.flatten_nil,
          List.append_nil]
        exact exists_cover_concat _ _ _ hlo hhi)

/-- C5 witness: a two-piece curve ending at interval [50000, 60000] yields
a settlement list whose last payout spans [50000, MAX_PRICE_DEC]. -/
theorem payouts_new_inverse_short_liquidation_witness :
    ∃ ps : Payouts.Payouts,
      Payouts.newInverse Position.long Role.taker
            [⟨0, 49999, 7, 3⟩, ⟨50000, 60000, 0, 10⟩] =
          Except.ok ps ∧
        ps.settlement.getLastI = ps.shortLiquidation ∧
        ps.shortLiquidation.rangeHi = Payouts.MAX_PRICE_DEC ∧
        ps.shortLiquidation.rangeLo =
          (([⟨0, 49999, 7, 3⟩, ⟨50000, 60000, 0, 10⟩] :
              List Payouts.PiecePayout).getLast (by decide)).rangeLo ∧
        ∀ price : Nat,
          (([⟨0, 49999, 7, 3⟩, ⟨50000, 60000, 0, 10⟩] :
              List Payouts.PiecePayout).getLast (by decide)).rangeLo ≤ price →
          price ≤ Payouts.MAX_PRICE_DEC →
          ∃ q ∈ ps.settlement, q.rangeLo ≤ price ∧ price ≤ q.rangeHi :=
  payouts_new_inverse_short_liquidation Position.long Role.taker
    [⟨0, 49999, 7, 3⟩, ⟨50000, 60000, 0, 10⟩] (by decide)

/-- C1: for every CfdEvent handled by the process manager, the database
append comes first and the projections last, and the side effects
dispatched in between are exactly those prescribed for the event kind:
ContractSetupCompleted with a DLC broadcasts the lock transaction, starts
monitoring and registers attestation interest for the settlement event;
RolloverCompleted with a DLC starts monitoring and registers attestation
interest; CollaborativeSettlementCompleted broadcasts the spend
transaction only for the maker and monitors it in both roles;
OracleAttestedPriorCetTimelock broadcasts the commit transaction when it
carries one and otherwise monitors the timelocked CET for finality;
OracleAttestedPostCetTimelock and CetTimelockExpiredPostOracleAttestation
monitor and broadcast the CET; RefundTimelockExpired broadcasts the refund
transaction; ManualCommit broadcasts the commit transaction; every other
kind dispatches no side effect. -/
theorem process_manager_side_effects (role : Role) (id : Nat) (ts : Int) :
    (∀ k : ProcessManager.EventKind,
        ProcessManager.handle role ⟨id, ts, k⟩ =
          ProcessManager.Action.appendEvent id k ::
            (ProcessManager.sideEffects role ⟨id, ts, k⟩ ++
              [ProcessManager.Action.cfdsChanged id,
               ProcessManager.Action.cfdChangedMetrics id])) ∧
      (∀ dlc, ProcessManager.sideEffects role
          ⟨id, ts, ProcessManager.EventKind.contractSetupCompleted (some dlc)⟩ =
        [ProcessManager.Action.tryBroadcastTransaction dlc.lockTx
            ProcessManager.TxKind.lock,
         ProcessManager.Action.startMonitoring id dlc,
         ProcessManager.Action.monitorAttestation dlc.settlementEventId]) ∧
      (∀ dlc, ProcessManager.sideEffects role
          ⟨id, ts, ProcessManager.EventKind.rolloverCompleted (some dlc)⟩ =
        [ProcessManager.Action.startMonitoring id dlc,
         ProcessManager.Action.monitorAttestation dlc.settlementEventId]) ∧
      (∀ tx script, ProcessManager.sideEffects role
          ⟨id, ts, ProcessManager.EventKind.collaborativeSettlementCompleted tx script⟩ =
        (if role = Role.maker then
            [ProcessManager.Action.tryBroadcastTransaction tx
              ProcessManager.TxKind.collaborativeClose]
          else []) ++
          [ProcessManager.Action.monitorCollaborativeSettlement id tx.txid script]) ∧
      (∀ cet ctx, ProcessManager.sideEffects role
          ⟨id, ts, ProcessManager.EventKind.oracleAttestedPriorCetTimelock cet (some ctx)⟩ =
        [ProcessManager.Action.tryBroadcastTransaction ctx
          ProcessManager.TxKind.commit]) ∧
      (∀ cet, ProcessManager.sideEffects role
          ⟨id, ts, ProcessManager.EventKind.oracleAttestedPriorCetTimelock cet none⟩ =
        [ProcessManager.Action.monitorCetFinality id cet]) ∧
      (∀ cet, ProcessManager.sideEffects role
          ⟨id, ts, ProcessManager.EventKind.oracleAttestedPostCetTimelock cet⟩ =
        [ProcessManager.Action.monitorCetFinality id cet,
         ProcessManager.Action.tryBroadcastTransaction cet ProcessManager.TxKind.cet]) ∧
      (∀ cet, ProcessManager.sideEffects role
          ⟨id, ts, ProcessManager.EventKind.cetTimelockExpiredPostOracleAttestation cet⟩ =
        [ProcessManager.Action.monitorCetFinality id cet,
         ProcessManager.Action.tryBroadcastTransaction cet ProcessManager.TxKind.cet]) ∧
      (∀ tx, ProcessManager.sideEffects role
          ⟨id, ts, ProcessManager.EventKind.refundTimelockExpired tx⟩ =
        [ProcessManager.Action.tryBroadcastTransaction tx
          ProcessManager.TxKind.refund]) ∧
      (∀ tx, ProcessManager.sideEffects role
          ⟨id, ts, ProcessManager.EventKind.manualCommit tx⟩ =
        [ProcessManager.Action.tryBroadcastTransaction tx
          ProcessManager.TxKind.commit]) ∧
      ([ProcessManager.EventKind.contractSetupCompleted none,
        ProcessManager.EventKind.rolloverCompleted none,
        ProcessManager.EventKind.refundConfirmed,
        ProcessManager.EventKind.collaborativeSettlementStarted,
        ProcessManager.EventKind.contractSetupStarted,
        ProcessManager.EventKind.contractSetupFailed,
        ProcessManager.EventKind.offerRejected,
        ProcessManager.EventKind.rolloverStarted,
        ProcessManager.EventKind.rolloverAccepted,
        ProcessManager.EventKind.rolloverRejected,
        ProcessManager.EventKind.rolloverFailed,
        ProcessManager.EventKind.collaborativeSettlementProposalAccepted,
        ProcessManager.EventKind.lockConfirmed,
        ProcessManager.EventKind.lockConfirmedAfterFinality,
        ProcessManager.EventKind.commitConfirmed,
        ProcessManager.EventKind.cetConfirmed,
        ProcessManager.EventKind.revokeConfirmed,
        ProcessManager.EventKind.collaborativeSettlementConfirmed,
        ProcessManager.EventKind.collaborativeSettlementRejected,
        ProcessManager.EventKind.collaborativeSettlementFailed,
        ProcessManager.EventKind.cetTimelockExpiredPriorOracleAttestation].map
          (fun k => ProcessManager.sideEffects role ⟨id, ts, k⟩)) =
        List.replicate 21 [] := by
  refine ⟨fun k => rfl, fun dlc => rfl, fun dlc => rfl, ?_, fun cet ctx => rfl,
    fun cet => rfl, fun cet => rfl, fun cet => rfl, fun tx => rfl, fun tx => rfl,
    rfl⟩
  intro tx script
  cases role <;> rfl

/-- C3: starting from an Open contract with zero accumulated fees,
completing one rollover makes the accumulated fees on both sides equal the
fee calculator value for 24 rollover hours; a second rollover makes them
the value for 48 hours; and retrying the second rollover from the first
rollover DLC (passing that DLC commit txid and settlement event id as the
from-parameters) leaves the accumulated fees at the value for 48 hours, so
the funding fee is not charged twice for the repeated epoch. -/
theorem rollover_fee_accounting (fc : Rollover.FeeCalculator)
    (t0 t1 t2 t3 e0 e1 e2 e3 : Nat) (hne : t2 ≠ t1) :
    ∃ c1 c2 c3 : Rollover.RolloverCfd,
      Rollover.completeRollover fc ⟨⟨t0, e0, 0, 0⟩, [⟨t0, e0, 0, 0⟩]⟩ none t1 e1 =
          some c1 ∧
        (c1.latestDlc.feesMaker, c1.latestDlc.feesTaker) =
          fc.forRolloverHours 24 ∧
        Rollover.completeRollover fc c1 none t2 e2 = some c2 ∧
        (c2.latestDlc.feesMaker, c2.latestDlc.feesTaker) =
          fc.forRolloverHours 48 ∧
        Rollover.completeRollover fc c2
            (some (c1.latestDlc.commitTxid, c1.latestDlc.settlementEventId))
            t3 e3 =
          some c3 ∧
        (c3.latestDlc.feesMaker, c3.latestDlc.feesTaker) =
          fc.forRolloverHours 48 := by
  have hfind :
      List.find? (fun d => d.commitTxid == t1 && d.settlementEventId == e1)
          [(⟨t2, e2, 0 + fc.makerTermFee + fc.makerTermFee,
              0 + fc.takerTermFee + fc.takerTermFee⟩ : Rollover.RolloverDlc),
           ⟨t1, e1, 0 + fc.makerTermFee, 0 + fc.takerTermFee⟩,
           ⟨t0, e0, 0, 0⟩] =
        some ⟨t1, e1, 0 + fc.makerTermFee, 0 + fc.takerTermFee⟩ := by
    rw [List.find?_cons_of_neg _ (by simp [hne]),
      List.find?_cons_of_pos _ (by simp)]
  refine ⟨⟨⟨t1, e1, 0 + fc.makerTermFee, 0 + fc.takerTermFee⟩,
      [⟨t1, e1, 0 + fc.makerTermFee, 0 + fc.takerTermFee⟩, ⟨t0, e0, 0, 0⟩]⟩,
    ⟨⟨t2, e2, 0 + fc.makerTermFee + fc.makerTermFee,
        0 + fc.takerTermFee + fc.takerTermFee⟩,
      [⟨t2, e2, 0 + fc.makerTermFee + fc.makerTermFee,
          0 + fc.takerTermFee + fc.takerTermFee⟩,
        ⟨t1, e1, 0 + fc.makerTermFee, 0 + fc.takerTermFee⟩, ⟨t0, e0, 0, 0⟩]⟩,
    ⟨⟨t3, e3, 0 + fc.makerTermFee + fc.makerTermFee,
        0 + fc.takerTermFee + fc.takerTermFee⟩,
      [⟨t3, e3, 0 + fc.makerTermFee + fc.makerTermFee,
          0 + fc.takerTermFee + fc.takerTermFee⟩,
        ⟨t2, e2, 0 + fc.makerTermFee + fc.makerTermFee,
          0 + fc.takerTermFee + fc.takerTermFee⟩,
        ⟨t1, e1, 0 + fc.makerTermFee, 0 + fc.takerTermFee⟩, ⟨t0, e0, 0, 0⟩]⟩,
    rfl, ?_, rfl, ?_, ?_, ?_⟩
  · simp [Rollover.FeeCalculator.forRolloverHours]
  · simp only [Rollover.FeeCalculator.forRolloverHours, Prod.mk.injEq]
    norm_num
    constructor <;> ring
  · simp only [Rollover.completeRollover]
    rw [hfind]
    rfl
  · simp only [Rollover.FeeCalculator.forRolloverHours, Prod.mk.injEq]
    norm_num
    constructor <;> ring

/-- C3 witness: a concrete run with per-term fees (3, -3) and distinct
commit txids 10..13 and event ids 20..23. -/
theorem rollover_fee_accounting_witness :
    ∃ c1 c2 c3 : Rollover.RolloverCfd,
      Rollover.completeRollover ⟨3, -3⟩ ⟨⟨10, 20, 0, 0⟩, [⟨10, 20, 0, 0⟩]⟩
            none 11 21 =
          some c1 ∧
        (c1.latestDlc.feesMaker, c1.latestDlc.feesTaker) =
          Rollover.FeeCalculator.forRolloverHours ⟨3, -3⟩ 24 ∧
        Rollover.completeRollover ⟨3, -3⟩ c1 none 12 22 = some c2 ∧
        (c2.latestDlc.feesMaker, c2.latestDlc.feesTaker) =
          Rollover.FeeCalculator.forRolloverHours ⟨3, -3⟩ 48 ∧
        Rollover.completeRollover ⟨3, -3⟩ c2
            (some (c1.latestDlc.commitTxid, c1.latestDlc.settlementEventId))
            13 23 =
          some c3 ∧
        (c3.latestDlc.feesMaker, c3.latestDlc.feesTaker) =
          Rollover.FeeCalculator.forRolloverHours ⟨3, -3⟩ 48 :=
  rollover_fee_accounting ⟨3, -3⟩ 10 11 12 13 20 21 22 23 (by decide)

/-- C2: a contract is selected for archival if and only if it is live and
its event log contains one of the three terminal on-chain events
(CollaborativeSettlementConfirmed, CetConfirmed or RefundConfirmed); and
for every selected contract the move is atomic: after move_to_closed_cfds
either the closed row, its satellite rows and the event-log copy were all
inserted and the live rows of the contract were deleted, or (on any
failure of the per-contract transaction, including an insane combination
of recorded settlement transactions) the contract is unchanged in the live
tables and is still selected on the next call. -/
theorem move_to_closed_cfds_spec (s : Db.DbState) (id : Nat) :
    (id ∈ Db.closedCfdIdsAccordingToTheBlockchain s ↔
      (∃ r, (id, r) ∈ s.cfds) ∧
        ∃ e ∈ s.events, e.1 = id ∧
          Db.isTerminalName (Db.kindName e.2.kind) = true) ∧
      (id ∈ Db.closedCfdIdsAccordingToTheBlockchain s →
        Db.movedOut s (Db.moveToClosedCfds s) id ∨
          (Db.liveUnchanged s (Db.moveToClosedCfds s) id ∧
            id ∈ Db.closedCfdIdsAccordingToTheBlockchain
              (Db.moveToClosedCfds s))) := by
  refine ⟨mem_closedCfdIds_iff s id, ?_⟩
  intro hsel
  have hfin := foldl_moveStep_preserves s id
    (Db.closedCfdIdsAccordingToTheBlockchain s) s (Or.inr ⟨rfl, rfl⟩)
  cases hfin with
  | inl hm => exact Or.inl hm
  | inr hlive =>
    right
    refine ⟨hlive, ?_⟩
    obtain ⟨⟨r, hr⟩, e, he, he1, hterm⟩ := (mem_closedCfdIds_iff s id).mp hsel
    refine (mem_closedCfdIds_iff _ id).mpr ⟨⟨r, ?_⟩, e, ?_, he1, hterm⟩
    · have hmem : (id, r) ∈ s.cfds.filter (fun c => c.1 == id) :=
        List.mem_filter.mpr ⟨hr, by simp⟩
      rw [← hlive.1] at hmem
      exact List.mem_of_mem_filter hmem
    · have hmem : e ∈ s.events.filter (fun x => x.1 == id) :=
        List.mem_filter.mpr ⟨he, by simp [he1]⟩
      rw [← hlive.2] at hmem
      exact List.mem_of_mem_filter hmem

/-- C2 witness: in the example database, contract 1 is selected for
archival and the move either completes in full or leaves the live rows
untouched and the contract selected again. -/
theorem move_to_closed_cfds_spec_witness :
    1 ∈ Db.closedCfdIdsAccordingToTheBlockchain Db.exampleDb ∧
      (Db.movedOut Db.exampleDb (Db.moveToClosedCfds Db.exampleDb) 1 ∨
        (Db.liveUnchanged Db.exampleDb (Db.moveToClosedCfds Db.exampleDb) 1 ∧
          1 ∈ Db.closedCfdIdsAccordingToTheBlockchain
            (Db.moveToClosedCfds Db.exampleDb))) :=
  ⟨by decide, (move_to_closed_cfds_spec Db.exampleDb 1).2 (by decide)⟩

end Hermes
